import Mathlib

/-
  Verification of the ITGen adversarial-robustness platform backend.

  This file gives a shallow embedding, in Lean 4, of the parts of the
  repository that the verified properties talk about:

  * the Task row and its status machine
    (backend/server/app/models/db_tasks.py),
  * the task service operations
    (backend/server/app/services/task_service.py),
  * the user row and the login flow
    (backend/server/app/models/db_users.py,
     backend/server/app/controllers/auth_controller.py),
  * model deletion through the admin controller and the model service
    (backend/server/app/controllers/admin_controller.py,
     backend/server/app/services/model_service.py),
  * report aggregation
    (backend/server/app/services/evaluation_service.py),
  * the attacker result contract
    (backend/server/app/attacks/... attacker.py files).

  Database rows become Lean structures, SQLAlchemy queries become list
  operations, wall-clock datetimes become integers counting seconds, and
  JSON blobs that no verified property inspects are carried as opaque
  optional strings.  Python dict results are association lists so that
  key presence is a real, provable property.
-/

/-! ## Task data model (backend/server/app/models/db_tasks.py) -/

/-- Task status column values, from the TASK_STATUSES table of
task_service.py and the status column comment of db_tasks.py. -/
inductive TaskStatus where
  | pending
  | queued
  | running
  | completed
  | failed
  | cancelled
deriving DecidableEq, Repr

/-- Shorthand used throughout db_tasks.py: the three terminal statuses
in the list literal of Task.update_status. -/
def TaskStatus.isTerminal (s : TaskStatus) : Bool :=
  s == .completed || s == .failed || s == .cancelled

/-- One row of the tasks table.  Datetimes are integers (seconds);
JSON blob columns that no verified property inspects (result, metrics,
statistics, output_files) are opaque optional strings. -/
structure TaskRow where
  id : String
  taskType : String
  modelId : Option Int
  status : TaskStatus
  priority : Int
  progress : Rat
  progressMessage : Option String
  result : Option String
  outputFiles : Option String
  metrics : Option String
  statistics : Option String
  errorMessage : Option String
  errorCode : Option String
  executionTime : Option Int
  createdAt : Int
  queuedAt : Option Int
  startedAt : Option Int
  completedAt : Option Int
  queueName : String
  workerId : Option String
  retryCount : Int
  maxRetries : Int
deriving DecidableEq, Repr

/-- The line "if progress is not None: self.progress = progress" of
Task.update_status. -/
def TaskRow.setProgress (progress : Option Rat) (t : TaskRow) : TaskRow :=
  match progress with
  | some p => { t with progress := p }
  | none => t

/-- The line assigning progress_message in Task.update_status. -/
def TaskRow.setProgressMessage (m : Option String) (t : TaskRow) : TaskRow :=
  match m with
  | some v => { t with progressMessage := some v }
  | none => t

/-- The line assigning error_message in Task.update_status. -/
def TaskRow.setErrorMessage (m : Option String) (t : TaskRow) : TaskRow :=
  match m with
  | some v => { t with errorMessage := some v }
  | none => t

/-- The line assigning error_code in Task.update_status. -/
def TaskRow.setErrorCode (c : Option String) (t : TaskRow) : TaskRow :=
  match c with
  | some v => { t with errorCode := some v }
  | none => t

/-- The timestamp block at the end of Task.update_status: stamps
queued_at, started_at and completed_at only when they are not yet set,
and on the first entry into a terminal status derives execution_time
from started_at when the latter is present. -/
def TaskRow.stampTimes (status : TaskStatus) (now : Int) (t : TaskRow) :
    TaskRow :=
  if status == .queued && t.queuedAt == none then
    { t with queuedAt := some now }
  else if status == .running && t.startedAt == none then
    { t with startedAt := some now }
  else if status.isTerminal then
    if t.completedAt == none then
      let t := { t with completedAt := some now }
      match t.startedAt with
      | some st => { t with executionTime := some (now - st) }
      | none => t
    else t
  else t

/-- Task.update_status of db_tasks.py: sets the status field
unconditionally, optionally overwrites progress and messages, then
runs the timestamp block. -/
def TaskRow.update_status (t : TaskRow) (status : TaskStatus)
    (progress : Option Rat) (progress_message : Option String)
    (error_message : Option String) (error_code : Option String)
    (now : Int) : TaskRow :=
  ({ t with status := status }
    |> TaskRow.setProgress progress
    |> TaskRow.setProgressMessage progress_message
    |> TaskRow.setErrorMessage error_message
    |> TaskRow.setErrorCode error_code
    |> TaskRow.stampTimes status now)

/-- Task.mark_queued of db_tasks.py. -/
def TaskRow.mark_queued (t : TaskRow) (queue_name : Option String)
    (now : Int) : TaskRow :=
  let t := match queue_name with
    | some q => { t with queueName := q }
    | none => t
  t.update_status .queued none none none none now

/-- Task.mark_running of db_tasks.py. -/
def TaskRow.mark_running (t : TaskRow) (worker_id : Option String)
    (now : Int) : TaskRow :=
  let t := match worker_id with
    | some w => { t with workerId := some w }
    | none => t
  t.update_status .running none none none none now

/-- Task.mark_completed of db_tasks.py: assigns result, metrics and
statistics unconditionally, then updates the status to completed with
progress 100. -/
def TaskRow.mark_completed (t : TaskRow)
    (result metrics statistics : Option String) (now : Int) : TaskRow :=
  let t := { t with result := result, metrics := metrics,
                    statistics := statistics }
  t.update_status .completed (some 100) (some "任务完成") none none now

/-- Task.mark_failed of db_tasks.py. -/
def TaskRow.mark_failed (t : TaskRow) (error_message : String)
    (error_code : Option String) (now : Int) : TaskRow :=
  t.update_status .failed none none (some error_message) error_code now

/-- Task.can_retry of db_tasks.py. -/
def TaskRow.can_retry (t : TaskRow) : Bool :=
  t.retryCount < t.maxRetries

/-! ## Task service (backend/server/app/services/task_service.py) -/

/-- TaskService.update_task_status: applies Task.update_status and then
overwrites the payload columns that were passed as non-None. -/
def TaskService.update_task_status (t : TaskRow) (status : TaskStatus)
    (progress : Option Rat) (progress_message : Option String)
    (result metrics statistics output_files : Option String)
    (error_message error_code worker_id : Option String)
    (now : Int) : TaskRow :=
  let t := t.update_status status progress progress_message
             error_message error_code now
  let t := match result with
    | some r => { t with result := some r }
    | none => t
  let t := match metrics with
    | some m => { t with metrics := some m }
    | none => t
  let t := match statistics with
    | some s => { t with statistics := some s }
    | none => t
  let t := match output_files with
    | some o => { t with outputFiles := some o }
    | none => t
  match worker_id with
  | some w => { t with workerId := some w }
  | none => t

/-- TaskService.mark_task_running. -/
def TaskService.mark_task_running (t : TaskRow)
    (worker_id : Option String) (now : Int) : TaskRow :=
  t.mark_running worker_id now

/-- TaskService.mark_task_completed. -/
def TaskService.mark_task_completed (t : TaskRow)
    (result metrics statistics output_files : Option String)
    (now : Int) : TaskRow :=
  let t := t.mark_completed result metrics statistics now
  match output_files with
  | some o => { t with outputFiles := some o }
  | none => t

/-- TaskService.mark_task_failed: marks the row failed, then, when the
retry budget is not exhausted, bumps the retry counter and resets the
status field directly to pending. -/
def TaskService.mark_task_failed (t : TaskRow) (error_message : String)
    (error_code : Option String) (now : Int) : TaskRow :=
  let t := t.mark_failed error_message error_code now
  if t.can_retry then
    { t with retryCount := t.retryCount + 1, status := .pending }
  else t

/-- TaskService.cancel_task: updates the status to cancelled with the
reason as the progress message, regardless of the current status. -/
def TaskService.cancel_task (t : TaskRow) (reason : Option String)
    (now : Int) : TaskRow :=
  t.update_status .cancelled none (some (reason.getD "任务已取消"))
    none none now

/-! ## Scheduler selection (TaskService.get_next_pending_task) -/

/-- Strict precedence used by the order_by clauses of task_service.py:
priority descending, then created_at ascending.  a precedes b exactly
when a has strictly higher priority, or equal priority and a strictly
earlier creation time. -/
def schedPrecedes (a b : TaskRow) : Bool :=
  b.priority < a.priority ||
    (a.priority == b.priority && a.createdAt < b.createdAt)

/-- Model of query.filter(p).order_by(priority desc, created_at asc).first():
the earliest-listed row among those satisfying p that no other
satisfying row strictly precedes. -/
def selectFirstBy (p : TaskRow → Bool) : List TaskRow → Option TaskRow
  | [] => none
  | t :: ts =>
    if p t then
      match selectFirstBy p ts with
      | none => some t
      | some r => if schedPrecedes r t then some r else some t
    else selectFirstBy p ts

/-- Writes back a mutated row, keyed by the task id, modelling the ORM
session flushing the mutated Task object. -/
def writeBackTask (tasks : List TaskRow) (t : TaskRow) : List TaskRow :=
  tasks.map (fun u => if u.id == t.id then t else u)

/-- TaskService.get_next_pending_task of task_service.py: pick the
top pending row by (priority desc, created_at asc); when none exists,
fall back to a queued row by the same order, re-validating that its
status is still pending or queued; a pending selection is flipped to
queued via mark_queued before being returned.  The repeated
refresh-and-recheck steps of the source re-read the same state in this
sequential model, so they appear here as the corresponding status
tests. -/
def TaskService.get_next_pending_task (tasks : List TaskRow)
    (now : Int) : Option TaskRow × List TaskRow :=
  let finish : TaskRow → Option TaskRow × List TaskRow := fun t =>
    if t.status.isTerminal then (none, tasks)
    else if t.status == .pending then
      let t2 := t.mark_queued none now
      (some t2, writeBackTask tasks t2)
    else if t.status == .queued then (some t, tasks)
    else (none, tasks)
  match selectFirstBy (fun t => t.status == .pending) tasks with
  | some t => finish t
  | none =>
    match selectFirstBy (fun t => t.status == .queued) tasks with
    | some t =>
      if t.status == .pending || t.status == .queued then finish t
      else (none, tasks)
    | none => (none, tasks)

/-! ## Task cleanup (TaskService.cleanup_old_tasks) -/

/-- Deletion predicate assembled by TaskService.cleanup_old_tasks: the
row must be older than the cutoff (now minus the retention days), must
match the type filter when one is given, and must match the status
filter: an explicit status when given, else completed or cancelled when
keep_failed is set, else any terminal status. -/
def cleanupDeletes (now : Int) (days : Int) (task_type : Option String)
    (status : Option TaskStatus) (keep_failed : Bool)
    (t : TaskRow) : Bool :=
  let cutoff := now - days * 86400
  t.createdAt < cutoff &&
  (match task_type with
   | some tt => t.taskType == tt
   | none => true) &&
  (match status with
   | some s => t.status == s
   | none =>
     if keep_failed then
       t.status == .completed || t.status == .cancelled
     else
       t.status == .completed || t.status == .failed ||
         t.status == .cancelled)

/-- TaskService.cleanup_old_tasks: removes every row matched by the
deletion predicate and reports how many were removed. -/
def TaskService.cleanup_old_tasks (tasks : List TaskRow) (now : Int)
    (days : Int) (task_type : Option String)
    (status : Option TaskStatus) (keep_failed : Bool) :
    List TaskRow × Nat :=
  let deleted := tasks.filter (cleanupDeletes now days task_type status keep_failed)
  let remaining := tasks.filter
    (fun t => !(cleanupDeletes now days task_type status keep_failed t))
  (remaining, deleted.length)

/-! ## Users and login (db_users.py, auth_controller.py) -/

/-- One row of the users table; the password hash is abstracted into
the outcome of bcrypt.checkpw, which the login model receives as a
boolean input. -/
structure UserRow where
  status : String
  loginAttempts : Int
  lockedUntil : Option Int
  lastLogin : Option Int
deriving DecidableEq, Repr

/-- User.is_active of db_users.py. -/
def UserRow.is_active (u : UserRow) : Bool :=
  u.status == "active"

/-- User.increment_login_attempts of db_users.py. -/
def UserRow.increment_login_attempts (u : UserRow) : UserRow :=
  { u with loginAttempts := u.loginAttempts + 1 }

/-- User.reset_login_attempts of db_users.py: clears the counter and
the lockout timestamp. -/
def UserRow.reset_login_attempts (u : UserRow) : UserRow :=
  { u with loginAttempts := 0, lockedUntil := none }

/-- User.lock_account of db_users.py with its default of 30 minutes:
sets locked_until to now plus the given minutes. -/
def UserRow.lock_account (u : UserRow) (now : Int) (minutes : Int) :
    UserRow :=
  { u with lockedUntil := some (now + minutes * 60) }

/-- User.is_account_locked of db_users.py: locked while now is before
locked_until. -/
def UserRow.is_account_locked (u : UserRow) (now : Int) : Bool :=
  match u.lockedUntil with
  | some lu => now < lu
  | none => false

/-- User.update_last_login of db_users.py. -/
def UserRow.update_last_login (u : UserRow) (now : Int) : UserRow :=
  { u with lastLogin := some now }

/-- Outcome of one POST /auth/login request, keyed by HTTP status and
the Chinese message string the controller returns. -/
inductive LoginOutcome where
  | badRequest (msg : String)
  | unauthorized (msg : String)
  | success
deriving DecidableEq, Repr

/-- The login route of auth_controller.py, lines 45 to 95, for a
request whose username and password fields are non-empty.  The user
argument is the row found by the username-or-email lookup (none when no
row matches); password_correct is the outcome of check_password.  The
route consults is_active and check_password only: it never calls
is_account_locked, and a correct password resets the failure counter
and succeeds whatever locked_until holds. -/
def auth_login (user : Option UserRow) (password_correct : Bool)
    (now : Int) : LoginOutcome × Option UserRow :=
  match user with
  | none => (.unauthorized "用户不存在", none)
  | some u =>
    if !u.is_active then (.unauthorized "账户已被禁用", some u)
    else if !password_correct then
      let u := u.increment_login_attempts
      if 5 ≤ u.loginAttempts then
        let u := u.lock_account now 30
        (.unauthorized "密码错误次数过多，账户已被锁定30分钟", some u)
      else
        (.unauthorized "用户名或密码错误", some u)
    else
      let u := u.reset_login_attempts
      let u := u.update_last_login now
      (.success, some u)

/-! ## Model registry deletion (admin_controller.py, model_service.py) -/

/-- The columns of the models table that deletion consults. -/
structure ModelRow where
  id : Int
  modelName : String
  isPredefined : Bool
  modelSource : String
  userId : Option Int
deriving DecidableEq, Repr

/-- The authenticated caller of an admin route. -/
structure AuthUser where
  id : Int
  role : String
deriving DecidableEq, Repr

/-- User.is_admin of db_users.py. -/
def AuthUser.is_admin (u : AuthUser) : Bool :=
  u.role == "admin"

/-- The database state that model deletion reads and writes. -/
structure RegistryState where
  models : List ModelRow
  tasks : List TaskRow
deriving DecidableEq, Repr

/-- An HTTP response, reduced to its status code and message. -/
structure HttpResp where
  code : Int
  message : String
deriving DecidableEq, Repr

/-- A task row counts as active for the deletion guard of
admin_controller.py when its model_id matches and its status is
pending, queued or running. -/
def activeTaskFor (model_id : Int) (t : TaskRow) : Bool :=
  t.modelId == some model_id &&
    (t.status == .pending || t.status == .queued || t.status == .running)

/-- The DELETE /admin/models/(id) route of admin_controller.py, lines
422 to 461: 404 when the model is missing, 403 on ownership or
predefined violations for non-admins, 409 when any pending, queued or
running task references the model, else the row is deleted. -/
def admin_delete_model (current_user : AuthUser) (model_id : Int)
    (st : RegistryState) : HttpResp × RegistryState :=
  match st.models.find? (fun m => m.id == model_id) with
  | none => (⟨404, "模型不存在"⟩, st)
  | some model =>
    if !current_user.is_admin && !(model.userId == some current_user.id) then
      (⟨403, "无权删除此模型"⟩, st)
    else if !current_user.is_admin && model.isPredefined then
      (⟨403, "不能删除预定义模型"⟩, st)
    else
      let active_tasks := (st.tasks.filter (activeTaskFor model_id)).length
      if 0 < active_tasks then
        (⟨409, "该模型有活跃任务，无法删除"⟩, st)
      else if model.isPredefined && !current_user.is_admin then
        (⟨403, "不能删除预定义模型"⟩, st)
      else
        (⟨200, "模型删除成功"⟩,
         { st with models := st.models.filter (fun m => !(m.id == model_id)) })

/-- ModelService.delete_model of model_service.py, lines 88 to 152:
returns false when the row is missing, raises on a predefined model,
and otherwise removes the row (after deleting files for user-sourced
models, a side effect outside this state).  It consults no task rows. -/
def ModelService.delete_model (model_id : Int) (st : RegistryState) :
    Except String (Bool × RegistryState) :=
  match st.models.find? (fun m => m.id == model_id) with
  | none => .ok (false, st)
  | some model =>
    if model.isPredefined then .error "不能删除预定义模型"
    else
      .ok (true,
        { st with models := st.models.filter (fun m => !(m.id == model_id)) })

/-! ## Evaluation reporting (evaluation_service.py) -/

/-- Python round to an integer with round-half-to-even ties, the
behaviour of the built-in round; the embedding works in exact
rationals where the source works in floats. -/
def pyRoundInt (q : Rat) : Int :=
  let f : Int := ⌊q⌋
  let frac : Rat := q - f
  if frac < 1/2 then f
  else if 1/2 < frac then f + 1
  else if f % 2 == 0 then f else f + 1

/-- Python round(x, 2), as used for every reported metric. -/
def pyRound2 (q : Rat) : Rat :=
  (pyRoundInt (q * 100) : Rat) / 100

/-- One parsed attack-result record (a JSON-lines row); every field the
aggregation reads is optional, mirroring dict.get. -/
structure AttackRecord where
  recType : Option String
  queryTimes : Option Rat
  timeCost : Option Rat
  programLength : Option Rat
  identifierNum : Option Rat
deriving DecidableEq, Repr

/-- Successful-attack test of evaluation_service.py line 150: the Type
field is not the string "0" and is not None. -/
def is_successful_record (r : AttackRecord) : Bool :=
  r.recType != some "0" && r.recType != none

/-- Failed-attack test of evaluation_service.py line 151: the Type
field is the string "0". -/
def is_failed_record (r : AttackRecord) : Bool :=
  r.recType == some "0"

/-- The per-method metrics block built at lines 209 to 218 of
evaluation_service.py. -/
structure MethodMetrics where
  totalSamples : Nat
  successfulAttacks : Nat
  failedAttacks : Nat
  asr : Rat
  ami : Rat
  art : Rat
  avgProgramLength : Rat
  avgIdentifiers : Rat
deriving DecidableEq, Repr

/-- The per-method statistics loop of
EvaluationService.generate_report_from_results, lines 172 to 218:
classify the records, then compute ASR over all samples, AMI and ART
over successful samples only, and the two averages over all samples,
each rounded to 2 decimals (ASR after conversion to a percentage). -/
def compute_method_metrics (recs : List AttackRecord) : MethodMetrics :=
  let successful := recs.filter is_successful_record
  let failed := recs.filter is_failed_record
  let total := recs.length
  let sa := successful.length
  let asr : Rat := if 0 < total then (sa : Rat) / (total : Rat) else 0
  let ami : Rat :=
    if 0 < sa then
      ((successful.map (fun r => r.queryTimes.getD 0)).sum) / (sa : Rat)
    else 0
  let art : Rat :=
    if 0 < sa then
      ((successful.map (fun r => r.timeCost.getD 0)).sum) / (sa : Rat)
    else 0
  let apl : Rat :=
    if 0 < total then
      ((recs.map (fun r => r.programLength.getD 0)).sum) / (total : Rat)
    else 0
  let aid : Rat :=
    if 0 < total then
      ((recs.map (fun r => r.identifierNum.getD 0)).sum) / (total : Rat)
    else 0
  { totalSamples := total
    successfulAttacks := sa
    failedAttacks := failed.length
    asr := pyRound2 (asr * 100)
    ami := pyRound2 ami
    art := pyRound2 art
    avgProgramLength := pyRound2 apl
    avgIdentifiers := pyRound2 aid }

/-- The summary_stats block of the generated report. -/
structure SummaryStats where
  totalSamples : Nat
  successfulAttacks : Nat
  failedAttacks : Nat
  asr : Rat
  ami : Rat
  art : Rat
  avgProgramLength : Rat
  avgIdentifiers : Rat
deriving DecidableEq, Repr

/-- The aggregation output of generate_report_from_results. -/
structure RobustnessReport where
  methodMetrics : List (String × MethodMetrics)
  summaryStats : SummaryStats
deriving DecidableEq, Repr

/-- EvaluationService.generate_report_from_results, lines 145 to 290,
starting from the already-parsed per-method record lists (file globbing
and JSON parsing abstracted away): per-method metrics as above; overall
counters summed across methods; a descriptive error when every method
produced zero records; overall ASR pooled over all samples; and the
remaining overall figures as averages of the per-method values weighted
by each method's share of the pooled sample count. -/
def generate_report_from_results
    (methods : List (String × List AttackRecord)) :
    Except String RobustnessReport :=
  let methodMetrics := methods.map (fun p => (p.1, compute_method_metrics p.2))
  let total_samples : Nat := (methods.map (fun p => p.2.length)).sum
  let successful_attacks : Nat :=
    (methods.map (fun p => (p.2.filter is_successful_record).length)).sum
  let failed_attacks : Nat :=
    (methods.map (fun p => (p.2.filter is_failed_record).length)).sum
  if total_samples == 0 then
    .error "所有攻击方法都没有找到结果文件"
  else
    let overall_asr : Rat := (successful_attacks : Rat) / (total_samples : Rat)
    let weighted : (MethodMetrics → Rat) → Rat := fun f =>
      (methodMetrics.map
        (fun p => f p.2 * ((p.2.totalSamples : Rat) / (total_samples : Rat)))).sum
    .ok
      { methodMetrics := methodMetrics
        summaryStats :=
          { totalSamples := total_samples
            successfulAttacks := successful_attacks
            failedAttacks := failed_attacks
            asr := pyRound2 (overall_asr * 100)
            ami := pyRound2 (weighted (fun m => m.ami))
            art := pyRound2 (weighted (fun m => m.art))
            avgProgramLength := pyRound2 (weighted (fun m => m.avgProgramLength))
            avgIdentifiers := pyRound2 (weighted (fun m => m.avgIdentifiers)) } }

/-! ## Attackers (backend/server/app/attacks) -/

/-- A Python value as it appears in an attack result dict. -/
inductive PyVal where
  | pynull
  | pybool (b : Bool)
  | pyint (n : Int)
  | pyrat (q : Rat)
  | pystr (s : String)
  | pymap (m : List (String × String))
deriving DecidableEq, Repr

/-- A Python dict, as an association list keyed by strings, so that
key presence is provable. -/
abbrev PyDict := List (String × PyVal)

/-- The uniform attack-result contract of section 3 of the
specification: a result dict carries the seven keys of the
BaseAttacker.attack docstring, and adversarial_code is None whenever
success is false. -/
def attack_result_contract (d : PyDict) : Bool :=
  (["success", "original_code", "adversarial_code",
    "replaced_identifiers", "query_times", "time_cost",
    "error"].all (fun k => (d.lookup k).isSome)) &&
  (match d.lookup "success" with
   | some (.pybool false) => d.lookup "adversarial_code" == some .pynull
   | _ => true)

/-- The prediction-mismatch error string of itgen/attacker.py line 131
(also alert line 134 and beam line 123). -/
def mismatch_error (predicted true_label : Int) : String :=
  "模型预测(" ++ toString predicted ++ ")与真实标签(" ++
    toString true_label ++ ")不一致"

/-- The early-return dict of ITGenAttacker.attack lines 124 to 132,
issued when the model prediction differs from the supplied true label:
failure, no adversarial code, zero query times. -/
def itgen_mismatch_result (code1 : String) (predicted true_label : Int) :
    PyDict :=
  [("success", .pybool false),
   ("original_code", .pystr code1),
   ("adversarial_code", .pynull),
   ("replaced_identifiers", .pynull),
   ("query_times", .pyint 0),
   ("time_cost", .pyint 0),
   ("error", .pystr (mismatch_error predicted true_label))]

/-- The early-return dict of ITGenAttacker.attack lines 137 to 145,
issued when no substitutes are supplied. -/
def itgen_missing_substitutes_result (code1 : String) : PyDict :=
  [("success", .pybool false),
   ("original_code", .pystr code1),
   ("adversarial_code", .pynull),
   ("replaced_identifiers", .pynull),
   ("query_times", .pyint 0),
   ("time_cost", .pyint 0),
   ("error", .pystr "缺少替代词信息")]

/-- The result dict built at ITGenAttacker.attack lines 158 to 166 from
the search outcome: success exactly when is_success is 1; falsy values
(empty adversarial string, empty replacement map) become None.  A
budget-exhausted search lands here with is_success 0 and error None. -/
def itgen_search_result (code1 : String) (adv_code : String)
    (is_success : Int) (replaced : List (String × String))
    (query_times : Int) (time_cost : Rat) : PyDict :=
  [("success", .pybool (is_success == 1)),
   ("original_code", .pystr code1),
   ("adversarial_code", if adv_code == "" then .pynull else .pystr adv_code),
   ("replaced_identifiers", if replaced.isEmpty then .pynull
                            else .pymap replaced),
   ("query_times", .pyint query_times),
   ("time_cost", .pyrat time_cost),
   ("error", .pynull)]

/-- The exception-handler dict of ITGenAttacker.attack lines 177 to 185
(identically shaped in the ALERT and Beam attackers). -/
def itgen_exception_result (raw_code1 : String) (query_times : Int)
    (time_cost : Rat) (e : String) : PyDict :=
  [("success", .pybool false),
   ("original_code", .pystr raw_code1),
   ("adversarial_code", .pynull),
   ("replaced_identifiers", .pynull),
   ("query_times", .pyint query_times),
   ("time_cost", .pyrat time_cost),
   ("error", .pystr e)]

/-- The call self.itgen_attack(...) at itgen/attacker.py line 152.  The
class defines a method named _itgen_attack_impl but no attribute named
itgen_attack, and neither does BaseAttacker, so in Python this
attribute lookup raises AttributeError, which the surrounding handler
catches.  The payload type records what a search would return: the
adversarial code, the success flag, the replacement map and the query
count accumulated by the search. -/
def itgen_attack_call :
    Except String (String × Int × List (String × String) × Int) :=
  .error "AttributeError: ITGenAttacker object has no attribute itgen_attack"

/-- Model of the Python str.strip() call applied to the incoming code:
removes leading and trailing whitespace.  Implemented by structural
recursion on the character list so that concrete inputs evaluate
inside proofs. -/
def pyStrip (s : String) : String :=
  String.mk
    (((s.data.dropWhile Char.isWhitespace).reverse.dropWhile
      Char.isWhitespace).reverse)

/-- The inputs of one attack call: the raw code pair, the label the
target model currently predicts for the original input (the outcome of
the get_results call), the supplied true label, and the substitute
map.  An absent or empty substitutes dict are both falsy in Python and
are represented by the empty list. -/
structure AttackInput where
  code1 : String
  code2 : String
  predictedLabel : Int
  trueLabel : Int
  substitutes : List (String × List String)
deriving DecidableEq, Repr

/-- ITGenAttacker.attack of itgen/attacker.py lines 85 to 185: an empty
code1 raises ValueError into the exception handler; a prediction
mismatch returns the fixed failure dict before any search; missing
substitutes return the fixed failure dict; otherwise the search call is
made (and, the itgen_attack attribute being undefined, raises into the
exception handler).  time_cost is the elapsed wall clock supplied by
the caller. -/
def ITGenAttacker.attack (inp : AttackInput) (time_cost : Rat) : PyDict :=
  let code1 := pyStrip inp.code1
  if code1 == "" then
    itgen_exception_result inp.code1 0 time_cost "code1不能为空"
  else if !(inp.predictedLabel == inp.trueLabel) then
    itgen_mismatch_result code1 inp.predictedLabel inp.trueLabel
  else if inp.substitutes.isEmpty then
    itgen_missing_substitutes_result code1
  else
    match itgen_attack_call with
    | .error e => itgen_exception_result inp.code1 0 time_cost e
    | .ok (adv_code, is_success, replaced, qt) =>
      itgen_search_result code1 adv_code is_success replaced qt time_cost

/-- The record returned by ALERTAttacker.ga_attack, restricted to the
fields its caller reads. -/
structure GaAttackResult where
  adv_program : String
  is_attack_success : Int
  replaced_words : List (String × String)
deriving DecidableEq, Repr

/-- ALERTAttacker.ga_attack of alert/attacker.py lines 204 to 265: a
second prediction mismatch returns -1; no usable identifiers returns
-2; otherwise genetic_algorithm_attack, a stub at lines 306 to 329,
returns 0.  Every path leaves adv_program equal to the original code
and the replacement map empty.  The identifier extraction and
importance scoring are abstracted into the variable_names argument
because they do not affect the returned record. -/
def ALERTAttacker.ga_attack (code_1 : String) (orig_label true_label : Int)
    (variable_names : List String) : GaAttackResult :=
  if !(true_label == orig_label) then
    { adv_program := code_1, is_attack_success := -1, replaced_words := [] }
  else if variable_names.isEmpty then
    { adv_program := code_1, is_attack_success := -2, replaced_words := [] }
  else
    { adv_program := code_1, is_attack_success := 0, replaced_words := [] }

/-- ALERTAttacker.attack of alert/attacker.py lines 87 to 188.  The
final dict at lines 158 to 167 adds a task_type key beyond the seven
contract keys; adversarial_code falls back to None when the search left
the program unchanged.  query_times stays 0 on these paths because no
code path of this attacker calls _increment_query. -/
def ALERTAttacker.attack (inp : AttackInput)
    (variable_names : List String) (task_type : String)
    (time_cost : Rat) : PyDict :=
  let code1 := pyStrip inp.code1
  if code1 == "" then
    itgen_exception_result inp.code1 0 time_cost "code1不能为空"
  else if !(inp.predictedLabel == inp.trueLabel) then
    itgen_mismatch_result code1 inp.predictedLabel inp.trueLabel
  else if inp.substitutes.isEmpty then
    itgen_missing_substitutes_result code1
  else
    let r := ALERTAttacker.ga_attack code1 inp.predictedLabel inp.trueLabel
               variable_names
    [("success", .pybool (r.is_attack_success == 1)),
     ("original_code", .pystr code1),
     ("adversarial_code", if r.adv_program == code1 then .pynull
                          else .pystr r.adv_program),
     ("replaced_identifiers", if r.replaced_words.isEmpty then .pynull
                              else .pymap r.replaced_words),
     ("query_times", .pyint 0),
     ("time_cost", .pyrat time_cost),
     ("error", .pynull),
     ("task_type", .pystr task_type)]

/-- BeamAttacker.beam_attack of beam/attacker.py lines 189 to 216: a
second prediction mismatch returns -1, else the documented stub returns
0; both leave the program unchanged. -/
def BeamAttacker.beam_attack (code_1 : String)
    (orig_label true_label : Int) : GaAttackResult :=
  if !(true_label == orig_label) then
    { adv_program := code_1, is_attack_success := -1, replaced_words := [] }
  else
    { adv_program := code_1, is_attack_success := 0, replaced_words := [] }

/-- BeamAttacker.attack of beam/attacker.py lines 76 to 175, shaped
like the ALERT flow without the task_type key. -/
def BeamAttacker.attack (inp : AttackInput) (time_cost : Rat) : PyDict :=
  let code1 := pyStrip inp.code1
  if code1 == "" then
    itgen_exception_result inp.code1 0 time_cost "code1不能为空"
  else if !(inp.predictedLabel == inp.trueLabel) then
    itgen_mismatch_result code1 inp.predictedLabel inp.trueLabel
  else if inp.substitutes.isEmpty then
    itgen_missing_substitutes_result code1
  else
    let r := BeamAttacker.beam_attack code1 inp.predictedLabel inp.trueLabel
    [("success", .pybool (r.is_attack_success == 1)),
     ("original_code", .pystr code1),
     ("adversarial_code", if r.adv_program == code1 then .pynull
                          else .pystr r.adv_program),
     ("replaced_identifiers", if r.replaced_words.isEmpty then .pynull
                              else .pymap r.replaced_words),
     ("query_times", .pyint 0),
     ("time_cost", .pyrat time_cost),
     ("error", .pynull)]

/-- MHMAttacker.attack of mhm/attacker.py lines 25 to 42: a fixed
under-development failure dict. -/
def MHMAttacker.attack (inp : AttackInput) : PyDict :=
  [("success", .pybool false),
   ("original_code", .pystr inp.code1),
   ("adversarial_code", .pynull),
   ("replaced_identifiers", .pynull),
   ("query_times", .pyint 0),
   ("time_cost", .pyint 0),
   ("error", .pystr "MHM攻击算法开发中")]

/-- RNNSAttacker.attack of rnns/attacker.py lines 25 to 42: a fixed
under-development failure dict. -/
def RNNSAttacker.attack (inp : AttackInput) : PyDict :=
  [("success", .pybool false),
   ("original_code", .pystr inp.code1),
   ("adversarial_code", .pynull),
   ("replaced_identifiers", .pynull),
   ("query_times", .pyint 0),
   ("time_cost", .pyint 0),
   ("error", .pystr "RNNS攻击算法开发中")]

/-! ## Helper lemmas on the task status machine -/

/-- Field accounting for the payload assignments of Task.update_status:
after the status assignment and the four optional payload assignments,
the status field holds the requested status and every other column
relevant to the verified properties is unchanged. -/
theorem payload_fields (t : TaskRow) (s : TaskStatus)
    (p : Option Rat) (pm em ec : Option String) :
    let u := TaskRow.setErrorCode ec (TaskRow.setErrorMessage em
      (TaskRow.setProgressMessage pm (TaskRow.setProgress p
        { t with status := s })))
    u.status = s ∧ u.id = t.id ∧ u.priority = t.priority ∧
    u.createdAt = t.createdAt ∧ u.retryCount = t.retryCount ∧
    u.maxRetries = t.maxRetries ∧ u.queuedAt = t.queuedAt ∧
    u.startedAt = t.startedAt ∧ u.completedAt = t.completedAt ∧
    u.executionTime = t.executionTime := by
  cases p <;> cases pm <;> cases em <;> cases ec <;>
    exact ⟨rfl, rfl, rfl, rfl, rfl, rfl, rfl, rfl, rfl, rfl⟩

/-- The timestamp block leaves the status, identity, ordering and
retry columns alone. -/
theorem stampTimes_basic_fields (s : TaskStatus) (now : Int) (t : TaskRow) :
    (t.stampTimes s now).status = t.status ∧
    (t.stampTimes s now).id = t.id ∧
    (t.stampTimes s now).priority = t.priority ∧
    (t.stampTimes s now).createdAt = t.createdAt ∧
    (t.stampTimes s now).retryCount = t.retryCount ∧
    (t.stampTimes s now).maxRetries = t.maxRetries := by
  unfold TaskRow.stampTimes
  (repeat' split) <;> (cases hst : t.startedAt <;> simp_all)

/-- Timestamp accounting for the timestamp block: started_at and
completed_at are written only when still unset, execution_time is
written only together with completed_at, a first transition into
running stamps started_at, and a first transition into a terminal
status stamps completed_at and derives execution_time from started_at
when the latter is present. -/
theorem stampTimes_timestamps (s : TaskStatus) (now : Int) (t : TaskRow) :
    (∀ x, t.startedAt = some x → (t.stampTimes s now).startedAt = some x) ∧
    (∀ x, t.completedAt = some x →
      (t.stampTimes s now).completedAt = some x) ∧
    (∀ x, t.completedAt = some x →
      (t.stampTimes s now).executionTime = t.executionTime) ∧
    (t.startedAt = none → s = .running →
      (t.stampTimes s now).startedAt = some now) ∧
    (t.completedAt = none → s.isTerminal = true →
      (t.stampTimes s now).completedAt = some now ∧
      (t.stampTimes s now).executionTime =
        (match t.startedAt with
         | some st => some (now - st)
         | none => t.executionTime)) := by
  refine ⟨?_, ?_, ?_, ?_, ?_⟩
  · intro x hx
    unfold TaskRow.stampTimes
    (repeat' split) <;> simp_all
  · intro x hx
    unfold TaskRow.stampTimes
    (repeat' split) <;> simp_all
  · intro x hx
    unfold TaskRow.stampTimes
    (repeat' split) <;> simp_all
  · intro hs hrun
    subst hrun
    unfold TaskRow.stampTimes
    (repeat' split) <;> simp_all
  · intro hc hterm
    cases s
    case pending => simp [TaskStatus.isTerminal] at hterm
    case queued => simp [TaskStatus.isTerminal] at hterm
    case running => simp [TaskStatus.isTerminal] at hterm
    all_goals
      unfold TaskRow.stampTimes
      cases hst : t.startedAt <;> simp_all [TaskStatus.isTerminal]

/-- Field accounting for Task.update_status, assembled from the payload
and timestamp lemmas. -/
theorem update_status_basic_fields (t : TaskRow) (s : TaskStatus)
    (p : Option Rat) (pm em ec : Option String) (now : Int) :
    (t.update_status s p pm em ec now).status = s ∧
    (t.update_status s p pm em ec now).id = t.id ∧
    (t.update_status s p pm em ec now).priority = t.priority ∧
    (t.update_status s p pm em ec now).createdAt = t.createdAt ∧
    (t.update_status s p pm em ec now).retryCount = t.retryCount ∧
    (t.update_status s p pm em ec now).maxRetries = t.maxRetries := by
  have hp := payload_fields t s p pm em ec
  have hs := stampTimes_basic_fields s now
    (TaskRow.setErrorCode ec (TaskRow.setErrorMessage em
      (TaskRow.setProgressMessage pm (TaskRow.setProgress p
        { t with status := s }))))
  unfold TaskRow.update_status
  simp only at hp
  exact ⟨hs.1.trans hp.1, hs.2.1.trans hp.2.1, hs.2.2.1.trans hp.2.2.1,
    hs.2.2.2.1.trans hp.2.2.2.1, hs.2.2.2.2.1.trans hp.2.2.2.2.1,
    hs.2.2.2.2.2.trans hp.2.2.2.2.2.1⟩

/-- Timestamp accounting for Task.update_status, assembled from the
payload and timestamp lemmas. -/
theorem update_status_timestamps (t : TaskRow) (s : TaskStatus)
    (p : Option Rat) (pm em ec : Option String) (now : Int) :
    (∀ x, t.startedAt = some x →
      (t.update_status s p pm em ec now).startedAt = some x) ∧
    (∀ x, t.completedAt = some x →
      (t.update_status s p pm em ec now).completedAt = some x) ∧
    (∀ x, t.completedAt = some x →
      (t.update_status s p pm em ec now).executionTime = t.executionTime) ∧
    (t.startedAt = none → s = .running →
      (t.update_status s p pm em ec now).startedAt = some now) ∧
    (t.completedAt = none → s.isTerminal = true →
      (t.update_status s p pm em ec now).completedAt = some now ∧
      (t.update_status s p pm em ec now).executionTime =
        (match t.startedAt with
         | some st => some (now - st)
         | none => t.executionTime)) := by
  have hp := payload_fields t s p pm em ec
  simp only at hp
  obtain ⟨-, -, -, -, -, -, -, hstart, hcomp, hexec⟩ := hp
  have hs := stampTimes_timestamps s now
    (TaskRow.setErrorCode ec (TaskRow.setErrorMessage em
      (TaskRow.setProgressMessage pm (TaskRow.setProgress p
        { t with status := s }))))
  unfold TaskRow.update_status
  refine ⟨?_, ?_, ?_, ?_, ?_⟩
  · intro x hx
    exact hs.1 x (hstart.trans hx)
  · intro x hx
    exact hs.2.1 x (hcomp.trans hx)
  · intro x hx
    exact (hs.2.2.1 x (hcomp.trans hx)).trans hexec
  · intro hn hrun
    exact hs.2.2.2.1 (hstart.trans hn) hrun
  · intro hn hterm
    have h5 := hs.2.2.2.2 (hcomp.trans hn) hterm
    refine ⟨h5.1, ?_⟩
    rw [h5.2, hstart, hexec]

/-- A pending-task baseline row used by the concrete examples below. -/
def freshTask : TaskRow :=
  { id := "t0"
    taskType := "single_attack"
    modelId := none
    status := .pending
    priority := 8
    progress := 0
    progressMessage := none
    result := none
    outputFiles := none
    metrics := none
    statistics := none
    errorMessage := none
    errorCode := none
    executionTime := none
    createdAt := 0
    queuedAt := none
    startedAt := none
    completedAt := none
    queueName := "attack"
    workerId := none
    retryCount := 0
    maxRetries := 3 }

/-! ## C1: login lockout -/

/-- An account row exactly as the code leaves it right after its 5th
consecutive failed login: five recorded failures and a lockout stamp
for the next 30 minutes. -/
def lockedUser : UserRow :=
  { status := "active", loginAttempts := 5,
    lockedUntil := some 1700, lastLogin := none }

/-- C1: at time 0 the account is locked per User.is_account_locked
(locked_until is 1700), yet the login route accepts a correct password,
returns success, and resets the counter and the lockout stamp: the
route never consults is_account_locked, so the documented 30-minute
lockout is recorded but not enforced. -/
theorem login_admits_locked_user_with_correct_password :
    lockedUser.is_account_locked 0 = true ∧
    (auth_login (some lockedUser) true 0).1 = .success ∧
    (auth_login (some lockedUser) true 0).2 =
      some { status := "active", loginAttempts := 0,
             lockedUntil := none, lastLogin := some 0 } := by
  decide

/-! ## C2: task status machine monotonicity -/

/-- A task row that has already reached the terminal status
completed. -/
def completedTask : TaskRow :=
  { freshTask with
    status := .completed
    progress := 100
    queuedAt := some 5
    startedAt := some 10
    completedAt := some 50
    executionTime := some 40 }

/-- C2 counterexample: cancel_task applied to a completed task changes
its status to cancelled, so a terminal status is not sticky. -/
theorem cancel_task_moves_completed_to_cancelled :
    completedTask.status = .completed ∧
    (TaskService.cancel_task completedTask (some "stop") 500).status =
      .cancelled := by
  decide

/-- C2 amended: the task-service operations enforce no forward-only
state machine: Task.update_status (hence update_task_status and every
mark wrapper) installs the requested status unconditionally, cancel_task
moves any task, terminal or not, to cancelled, and mark_task_failed
with remaining retry budget resets the row to pending. -/
theorem task_status_updates_unguarded :
    (∀ (t : TaskRow) (s : TaskStatus) (p : Option Rat)
       (pm em ec : Option String) (now : Int),
      (t.update_status s p pm em ec now).status = s) ∧
    (∀ (t : TaskRow) (reason : Option String) (now : Int),
      (TaskService.cancel_task t reason now).status = .cancelled) ∧
    (∀ (t : TaskRow) (em : String) (ec : Option String) (now : Int),
      (TaskService.mark_task_failed t em ec now).status =
        (if t.retryCount < t.maxRetries then TaskStatus.pending
         else TaskStatus.failed)) := by
  refine ⟨?_, ?_, ?_⟩
  · intro t s p pm em ec now
    exact (update_status_basic_fields t s p pm em ec now).1
  · intro t reason now
    exact (update_status_basic_fields t .cancelled none
      (some (reason.getD "任务已取消")) none none now).1
  · intro t em ec now
    have h := update_status_basic_fields t .failed none none (some em) ec now
    obtain ⟨h1, -, -, -, h5, h6⟩ := h
    unfold TaskService.mark_task_failed TaskRow.mark_failed TaskRow.can_retry
    dsimp only
    rw [h5, h6]
    split
    · simp_all
    · rename_i hfalse
      simp only [decide_eq_true_eq] at hfalse
      rw [if_neg hfalse]
      exact h1

/-! ## C8: started_at / completed_at / execution_time -/

/-- One invocation of a task-service mutation, with its arguments and
the wall-clock time at which it runs. -/
inductive TaskOp where
  | updateTaskStatus (s : TaskStatus) (progress : Option Rat)
      (pm : Option String)
      (result metrics statistics output_files : Option String)
      (em ec wid : Option String) (now : Int)
  | markQueued (qn : Option String) (now : Int)
  | markRunning (wid : Option String) (now : Int)
  | markCompleted (result metrics statistics output_files : Option String)
      (now : Int)
  | markFailed (em : String) (ec : Option String) (now : Int)
  | cancelTask (reason : Option String) (now : Int)
deriving DecidableEq, Repr

/-- Interpretation of a task-service mutation on a row. -/
def TaskOp.apply : TaskOp → TaskRow → TaskRow
  | .updateTaskStatus s p pm r m st o em ec wid now, t =>
    TaskService.update_task_status t s p pm r m st o em ec wid now
  | .markQueued qn now, t => t.mark_queued qn now
  | .markRunning wid now, t => TaskService.mark_task_running t wid now
  | .markCompleted r m st o now, t =>
    TaskService.mark_task_completed t r m st o now
  | .markFailed em ec now, t => TaskService.mark_task_failed t em ec now
  | .cancelTask reason now, t => TaskService.cancel_task t reason now

/-- Every task-service mutation runs exactly one Task.update_status
call, on a row that agrees with the input row on the three timestamp
fields, and afterwards touches only payload, retry and worker columns;
this lemma extracts the timestamp fields of the result as those of
that update_status call. -/
theorem taskOp_apply_timestamps (op : TaskOp) (t : TaskRow) :
    ∃ (s : TaskStatus) (p : Option Rat) (pm em ec : Option String)
      (now : Int) (u : TaskRow),
      u.startedAt = t.startedAt ∧ u.completedAt = t.completedAt ∧
      u.executionTime = t.executionTime ∧
      (op.apply t).startedAt =
        (u.update_status s p pm em ec now).startedAt ∧
      (op.apply t).completedAt =
        (u.update_status s p pm em ec now).completedAt ∧
      (op.apply t).executionTime =
        (u.update_status s p pm em ec now).executionTime := by
  cases op with
  | updateTaskStatus s p pm r m st o em ec wid now =>
    refine ⟨s, p, pm, em, ec, now, t, rfl, rfl, rfl, ?_⟩
    simp only [TaskOp.apply]
    unfold TaskService.update_task_status
    cases r <;> cases m <;> cases st <;> cases o <;> cases wid <;>
      exact ⟨rfl, rfl, rfl⟩
  | markQueued qn now =>
    cases qn with
    | none =>
      exact ⟨.queued, none, none, none, none, now, t,
        rfl, rfl, rfl, rfl, rfl, rfl⟩
    | some q =>
      exact ⟨.queued, none, none, none, none, now,
        { t with queueName := q }, rfl, rfl, rfl, rfl, rfl, rfl⟩
  | markRunning wid now =>
    cases wid with
    | none =>
      exact ⟨.running, none, none, none, none, now, t,
        rfl, rfl, rfl, rfl, rfl, rfl⟩
    | some w =>
      exact ⟨.running, none, none, none, none, now,
        { t with workerId := some w }, rfl, rfl, rfl, rfl, rfl, rfl⟩
  | markCompleted r m st o now =>
    refine ⟨.completed, some 100, some "任务完成", none, none, now,
      { t with result := r, metrics := m, statistics := st },
      rfl, rfl, rfl, ?_⟩
    simp only [TaskOp.apply]
    unfold TaskService.mark_task_completed TaskRow.mark_completed
    cases o <;> exact ⟨rfl, rfl, rfl⟩
  | markFailed em ec now =>
    refine ⟨.failed, none, none, some em, ec, now, t, rfl, rfl, rfl, ?_⟩
    simp only [TaskOp.apply]
    unfold TaskService.mark_task_failed TaskRow.mark_failed
    dsimp only
    split <;> exact ⟨rfl, rfl, rfl⟩
  | cancelTask reason now =>
    exact ⟨.cancelled, none, some (reason.getD "任务已取消"), none, none,
      now, t, rfl, rfl, rfl, rfl, rfl, rfl⟩

/-- C8 amended: across every task-service mutation, started_at and
completed_at are write-once (the first transition into running stamps
started_at, the first into a terminal status stamps completed_at, and
no later operation overwrites either, the retrying failure path
included); execution_time is frozen once completed_at is set, and at
the moment completed_at is first stamped it becomes completed minus
started exactly when started_at is already present - when the first
terminal transition precedes running, execution_time stays unset even
though both timestamps may later be populated. -/
theorem task_timestamps_write_once :
    (∀ (op : TaskOp) (t : TaskRow) (x : Int),
      t.startedAt = some x → (op.apply t).startedAt = some x) ∧
    (∀ (op : TaskOp) (t : TaskRow) (x : Int),
      t.completedAt = some x → (op.apply t).completedAt = some x) ∧
    (∀ (op : TaskOp) (t : TaskRow) (x : Int),
      t.completedAt = some x →
      (op.apply t).executionTime = t.executionTime) ∧
    (∀ (t : TaskRow) (p : Option Rat) (pm em ec : Option String)
       (now : Int),
      t.startedAt = none →
      (t.update_status .running p pm em ec now).startedAt = some now) ∧
    (∀ (t : TaskRow) (s : TaskStatus) (p : Option Rat)
       (pm em ec : Option String) (now : Int),
      t.completedAt = none → s.isTerminal = true →
      (t.update_status s p pm em ec now).completedAt = some now ∧
      (t.update_status s p pm em ec now).executionTime =
        (match t.startedAt with
         | some st => some (now - st)
         | none => t.executionTime)) := by
  refine ⟨?_, ?_, ?_, ?_, ?_⟩
  · intro op t x hx
    obtain ⟨s, p, pm, em, ec, now, u, hu1, -, -, h1, -, -⟩ :=
      taskOp_apply_timestamps op t
    rw [h1]
    exact (update_status_timestamps u s p pm em ec now).1 x
      (hu1.trans hx)
  · intro op t x hx
    obtain ⟨s, p, pm, em, ec, now, u, -, hu2, -, -, h2, -⟩ :=
      taskOp_apply_timestamps op t
    rw [h2]
    exact (update_status_timestamps u s p pm em ec now).2.1 x
      (hu2.trans hx)
  · intro op t x hx
    obtain ⟨s, p, pm, em, ec, now, u, -, hu2, hu3, -, -, h3⟩ :=
      taskOp_apply_timestamps op t
    rw [h3]
    exact ((update_status_timestamps u s p pm em ec now).2.2.1 x
      (hu2.trans hx)).trans hu3
  · intro t p pm em ec now hn
    exact (update_status_timestamps t .running p pm em ec now).2.2.2.1 hn rfl
  · intro t s p pm em ec now hn hterm
    exact (update_status_timestamps t s p pm em ec now).2.2.2.2 hn hterm

/-- C8 witness: on a row whose started_at is already 10 and whose
completed_at is already 50, a later running transition at time 300
leaves started_at at 10; a fresh row first entering running at 7 gets
started_at 7; a row started at 7 first entering failed at 9 gets
completed_at 9 and execution_time 2. -/
theorem task_timestamps_write_once_witness :
    ((TaskOp.markRunning none 300).apply completedTask).startedAt =
      some 10 ∧
    ((TaskOp.cancelTask none 300).apply completedTask).completedAt =
      some 50 ∧
    ((TaskOp.cancelTask none 300).apply completedTask).executionTime =
      completedTask.executionTime ∧
    (freshTask.update_status .running none none none none 7).startedAt =
      some 7 ∧
    (((freshTask.update_status .running none none none none 7
      ).update_status .failed none none none none 9).completedAt = some 9 ∧
     ((freshTask.update_status .running none none none none 7
      ).update_status .failed none none none none 9).executionTime =
        (match (freshTask.update_status .running none none none none 7
                ).startedAt with
         | some st => some (9 - st)
         | none => (freshTask.update_status .running none none none none 7
                    ).executionTime)) := by
  refine ⟨?_, ?_, ?_, ?_, ?_⟩
  · exact task_timestamps_write_once.1 (.markRunning none 300)
      completedTask 10 rfl
  · exact task_timestamps_write_once.2.1 (.cancelTask none 300)
      completedTask 50 rfl
  · exact task_timestamps_write_once.2.2.1 (.cancelTask none 300)
      completedTask 50 rfl
  · exact task_timestamps_write_once.2.2.2.1 freshTask none none none
      none 7 rfl
  · exact task_timestamps_write_once.2.2.2.2
      (freshTask.update_status .running none none none none 7) .failed
      none none none none 9 (by decide) rfl

/-- C8 counterexample: on a fresh row, a cancellation at time 100
followed by a running transition at time 200 leaves both timestamps
populated (started_at 200, completed_at 100) while execution_time is
still unset, so execution_time does not equal completed minus started
whenever both timestamps are present. -/
theorem execution_time_unset_when_terminal_precedes_running :
    (((TaskOp.cancelTask none 100).apply freshTask |>
        (TaskOp.updateTaskStatus .running none none none none none none
          none none none 200).apply)).startedAt = some 200 ∧
    (((TaskOp.cancelTask none 100).apply freshTask |>
        (TaskOp.updateTaskStatus .running none none none none none none
          none none none 200).apply)).completedAt = some 100 ∧
    (((TaskOp.cancelTask none 100).apply freshTask |>
        (TaskOp.updateTaskStatus .running none none none none none none
          none none none 200).apply)).executionTime = none ∧
    ¬ (((TaskOp.cancelTask none 100).apply freshTask |>
        (TaskOp.updateTaskStatus .running none none none none none none
          none none none 200).apply)).executionTime =
        some (100 - 200) := by
  decide

/-! ## C10: cleanup_old_tasks deletes only aged terminal rows -/

/-- C10: when cleanup_old_tasks runs without an explicit status filter,
every deleted row is older than the cutoff and is terminal - completed
or cancelled when keep_failed is set, additionally failed when it is
not - and every pending, queued or running row survives regardless of
age. -/
theorem cleanup_old_tasks_spec (tasks : List TaskRow) (now days : Int)
    (task_type : Option String) (keep_failed : Bool) :
    (∀ t ∈ tasks,
      cleanupDeletes now days task_type none keep_failed t = true →
      t.createdAt < now - days * 86400 ∧
      (t.status = .completed ∨ t.status = .cancelled ∨
       (keep_failed = false ∧ t.status = .failed))) ∧
    (∀ t ∈ tasks,
      t.status = .pending ∨ t.status = .queued ∨ t.status = .running →
      t ∈ (TaskService.cleanup_old_tasks tasks now days task_type none
            keep_failed).1) := by
  constructor
  · intro t ht hdel
    unfold cleanupDeletes at hdel
    cases keep_failed <;> cases hts : t.status <;>
      simp_all [Bool.and_eq_true]
  · intro t ht hst
    unfold TaskService.cleanup_old_tasks
    simp only [List.mem_filter]
    refine ⟨ht, ?_⟩
    unfold cleanupDeletes
    rcases hst with h | h | h <;> cases keep_failed <;>
      simp_all [Bool.and_eq_true]

/-- An aged running task and an aged completed task used to witness
the cleanup property. -/
def agedRunningTask : TaskRow :=
  { freshTask with
    id := "aged-running"
    status := .running
    createdAt := -10000000 }

/-- C10 witness: with a 30-day window at time 0, the aged running task
is kept by cleanup while a deleted row is shown to be terminal and old
by the theorem itself. -/
theorem cleanup_old_tasks_spec_witness :
    agedRunningTask ∈
      (TaskService.cleanup_old_tasks [agedRunningTask] 0 30 none none
        true).1 ∧
    (cleanupDeletes 0 30 none none true completedTask = true →
      completedTask.createdAt < 0 - 30 * 86400 ∧
      (completedTask.status = .completed ∨
       completedTask.status = .cancelled ∨
       (True = False ∧ completedTask.status = .failed))) := by
  constructor
  · exact (cleanup_old_tasks_spec [agedRunningTask] 0 30 none true).2
      agedRunningTask (by simp) (Or.inr (Or.inr rfl))
  · intro hdel
    have h := (cleanup_old_tasks_spec [completedTask] 0 30 none true).1
      completedTask (by simp) hdel
    exact ⟨h.1, by simpa using h.2⟩

/-! ## C4: deleting a model with active tasks -/

/-- A concrete user-owned model row. -/
def demoModel : ModelRow :=
  { id := 1, modelName := "codebert-user", isPredefined := false,
    modelSource := "user", userId := some 2 }

/-- A running task that references the demo model. -/
def demoRunningTask : TaskRow :=
  { freshTask with
    id := "t-running"
    status := .running
    modelId := some 1 }

/-- The registry state holding the demo model and its running task. -/
def demoRegistry : RegistryState :=
  { models := [demoModel], tasks := [demoRunningTask] }

/-- C4 counterexample: with a running task referencing model 1, a
deletion request routed through ModelService.delete_model (the path
behind DELETE /api/models/(id)) succeeds and removes the model row: the
active-task guard lives only in the admin route, so not every deletion
request fails. -/
theorem service_delete_ignores_active_tasks :
    demoRunningTask ∈ demoRegistry.tasks ∧
    demoRunningTask.status = .running ∧
    demoRunningTask.modelId = some demoModel.id ∧
    ModelService.delete_model 1 demoRegistry =
      .ok (true, { demoRegistry with models := [] }) := by
  refine ⟨by simp [demoRegistry], by decide, by decide, ?_⟩
  rfl

/-- C4 amended: a deletion request through the admin route
(DELETE /admin/models/(id)) by a caller the route authorizes - an
admin, or the owner of a non-predefined model - fails with a 409
conflict and leaves the whole registry state (model rows and task rows)
unchanged whenever any pending, queued or running task references the
model; ModelService.delete_model, the path behind the public models
API, checks only the predefined flag and deletes the row even then. -/
theorem admin_delete_model_active_guard (u : AuthUser) (mid : Int)
    (st : RegistryState) (m : ModelRow)
    (hfind : st.models.find? (fun x => x.id == mid) = some m)
    (hperm : u.is_admin = true ∨
      (m.userId = some u.id ∧ m.isPredefined = false))
    (hactive : ∃ t ∈ st.tasks, activeTaskFor mid t = true) :
    (admin_delete_model u mid st).1.code = 409 ∧
    (admin_delete_model u mid st).2 = st := by
  have hcount : 0 < (st.tasks.filter (activeTaskFor mid)).length := by
    obtain ⟨t, ht, hat⟩ := hactive
    exact List.length_pos.mpr
      (List.ne_nil_of_mem (List.mem_filter.mpr ⟨ht, hat⟩))
  have hperm1 : (!u.is_admin && !(m.userId == some u.id)) = false := by
    rcases hperm with hadm | ⟨hown, hpre⟩
    · simp [hadm]
    · simp [hown]
  have hperm2 : (!u.is_admin && m.isPredefined) = false := by
    rcases hperm with hadm | ⟨hown, hpre⟩
    · simp [hadm]
    · simp [hpre]
  unfold admin_delete_model
  rw [hfind]
  dsimp only
  rw [hperm1, hperm2]
  simp only [Bool.false_eq_true, if_false]
  rw [if_pos hcount]
  exact ⟨rfl, rfl⟩

/-- C4 witness: an admin attempting to delete the demo model, which a
running task references, receives the 409 conflict and the registry is
unchanged. -/
theorem admin_delete_model_active_guard_witness :
    (admin_delete_model ⟨9, "admin"⟩ 1 demoRegistry).1.code = 409 ∧
    (admin_delete_model ⟨9, "admin"⟩ 1 demoRegistry).2 = demoRegistry := by
  exact admin_delete_model_active_guard ⟨9, "admin"⟩ 1 demoRegistry
    demoModel (by decide) (Or.inl rfl)
    ⟨demoRunningTask, by simp [demoRegistry], by decide⟩

/-! ## C7: get_next_pending_task picks by priority then creation time -/

/-- The scheduling precedence is irreflexive. -/
theorem schedPrecedes_irrefl (a : TaskRow) : schedPrecedes a a = false := by
  simp [schedPrecedes]

/-- The scheduling precedence is asymmetric. -/
theorem schedPrecedes_asymm (a b : TaskRow)
    (h : schedPrecedes a b = true) : schedPrecedes b a = false := by
  cases hba : schedPrecedes b a
  · rfl
  · exfalso
    simp only [schedPrecedes, Bool.or_eq_true, Bool.and_eq_true,
      decide_eq_true_eq, beq_iff_eq] at h hba
    omega

/-- Not-preceding is transitive. -/
theorem schedPrecedes_neg_trans (a b c : TaskRow)
    (h1 : schedPrecedes a b = false) (h2 : schedPrecedes b c = false) :
    schedPrecedes a c = false := by
  cases hac : schedPrecedes a c
  · rfl
  · exfalso
    have h1x : ¬ schedPrecedes a b = true := by simp [h1]
    have h2x : ¬ schedPrecedes b c = true := by simp [h2]
    simp only [schedPrecedes, Bool.or_eq_true, Bool.and_eq_true,
      decide_eq_true_eq, beq_iff_eq] at h1x h2x hac
    omega

/-- A selected row belongs to the list and satisfies the filter. -/
theorem selectFirstBy_mem (p : TaskRow → Bool) (l : List TaskRow)
    (r : TaskRow) (h : selectFirstBy p l = some r) :
    r ∈ l ∧ p r = true := by
  induction l with
  | nil => simp [selectFirstBy] at h
  | cons t ts ih =>
    unfold selectFirstBy at h
    by_cases hp : p t
    · rw [if_pos hp] at h
      cases hsel : selectFirstBy p ts with
      | none =>
        rw [hsel] at h
        dsimp only at h
        injection h with h
        subst h
        exact ⟨List.mem_cons_self t ts, hp⟩
      | some r2 =>
        rw [hsel] at h
        dsimp only at h
        by_cases hb : schedPrecedes r2 t = true
        · rw [if_pos hb] at h
          injection h with h
          subst h
          obtain ⟨hmem, hpr⟩ := ih hsel
          exact ⟨List.mem_cons_of_mem t hmem, hpr⟩
        · rw [if_neg hb] at h
          injection h with h
          subst h
          exact ⟨List.mem_cons_self t ts, hp⟩
    · rw [if_neg hp] at h
      obtain ⟨hmem, hpr⟩ := ih h
      exact ⟨List.mem_cons_of_mem t hmem, hpr⟩

/-- When some row passes the filter, the selection is not empty. -/
theorem selectFirstBy_isSome (p : TaskRow → Bool) (l : List TaskRow)
    (t : TaskRow) (ht : t ∈ l) (hp : p t = true) :
    (selectFirstBy p l).isSome = true := by
  induction l with
  | nil => cases ht
  | cons u us ih =>
    unfold selectFirstBy
    by_cases hu : p u
    · rw [if_pos hu]
      cases hsel : selectFirstBy p us with
      | none => rfl
      | some r2 =>
        dsimp only
        by_cases hb : schedPrecedes r2 u = true
        · rw [if_pos hb]
          rfl
        · rw [if_neg hb]
          rfl
    · rw [if_neg hu]
      rcases List.mem_cons.mp ht with heq | hmem
      · subst heq
        exact absurd hp hu
      · exact ih hmem

/-- No row that passes the filter strictly precedes the selected row. -/
theorem selectFirstBy_best (p : TaskRow → Bool) (l : List TaskRow)
    (r : TaskRow) (h : selectFirstBy p l = some r) :
    ∀ u ∈ l, p u = true → schedPrecedes u r = false := by
  induction l generalizing r with
  | nil => simp [selectFirstBy] at h
  | cons t ts ih =>
    intro u hu hpu
    unfold selectFirstBy at h
    by_cases hp : p t
    · rw [if_pos hp] at h
      cases hsel : selectFirstBy p ts with
      | none =>
        rw [hsel] at h
        dsimp only at h
        injection h with h
        subst h
        rcases List.mem_cons.mp hu with heq | hmem
        · subst heq
          exact schedPrecedes_irrefl u
        · have hs := selectFirstBy_isSome p ts u hmem hpu
          rw [hsel] at hs
          cases hs
      | some r2 =>
        rw [hsel] at h
        dsimp only at h
        by_cases hb : schedPrecedes r2 t = true
        · rw [if_pos hb] at h
          injection h with h
          subst h
          rcases List.mem_cons.mp hu with heq | hmem
          · subst heq
            exact schedPrecedes_asymm _ u hb
          · exact ih _ hsel u hmem hpu
        · rw [if_neg hb] at h
          injection h with h
          subst h
          rcases List.mem_cons.mp hu with heq | hmem
          · subst heq
            exact schedPrecedes_irrefl u
          · have hur2 := ih r2 hsel u hmem hpu
            exact schedPrecedes_neg_trans u r2 _ hur2
              (Bool.eq_false_iff.mpr hb)
    · rw [if_neg hp] at h
      rcases List.mem_cons.mp hu with heq | hmem
      · subst heq
        exact absurd hpu hp
      · exact ih r h u hmem hpu

/-- mark_queued with no queue name sets the status to queued and keeps
the identity and ordering columns. -/
theorem mark_queued_none_fields (t : TaskRow) (now : Int) :
    (t.mark_queued none now).status = .queued ∧
    (t.mark_queued none now).id = t.id ∧
    (t.mark_queued none now).priority = t.priority ∧
    (t.mark_queued none now).createdAt = t.createdAt := by
  unfold TaskRow.mark_queued
  dsimp only
  have h := update_status_basic_fields t .queued none none none none now
  exact ⟨h.1, h.2.1, h.2.2.1, h.2.2.2.1⟩

/-- C7: whenever a pending task exists, get_next_pending_task returns
one of the pending rows, marked queued, such that every other pending
row has strictly lower priority or equal priority and no earlier
creation time; and any returned row originates from a pending or
queued row, never from a completed, failed or cancelled one. -/
theorem get_next_pending_task_spec (tasks : List TaskRow) (now : Int) :
    ((∃ t ∈ tasks, t.status = .pending) →
      ∃ t ∈ tasks, t.status = .pending ∧
        (TaskService.get_next_pending_task tasks now).1 =
          some (t.mark_queued none now) ∧
        ∀ u ∈ tasks, u.status = .pending →
          u.priority < t.priority ∨
            (t.priority = u.priority ∧ t.createdAt ≤ u.createdAt)) ∧
    (∀ r, (TaskService.get_next_pending_task tasks now).1 = some r →
      r.status ≠ .completed ∧ r.status ≠ .failed ∧ r.status ≠ .cancelled ∧
      ∃ t ∈ tasks, r.id = t.id ∧
        (t.status = .pending ∨ t.status = .queued)) := by
  constructor
  · rintro ⟨w, hw, hwp⟩
    have hws : (fun t : TaskRow => t.status == .pending) w = true := by
      simp [hwp]
    have hsome := selectFirstBy_isSome
      (fun t : TaskRow => t.status == .pending) tasks w hw hws
    cases hsel : selectFirstBy (fun t : TaskRow => t.status == .pending)
        tasks with
    | none =>
      rw [hsel] at hsome
      cases hsome
    | some t =>
      obtain ⟨htmem, htp⟩ := selectFirstBy_mem _ tasks t hsel
      have htps : t.status = .pending := by simpa using htp
      refine ⟨t, htmem, htps, ?_, ?_⟩
      · unfold TaskService.get_next_pending_task
        rw [hsel]
        dsimp only
        rw [htps]
        simp [TaskStatus.isTerminal]
      · intro u hu hup
        have hbest := selectFirstBy_best _ tasks t hsel u hu (by simp [hup])
        have hbx : ¬ schedPrecedes u t = true := by simp [hbest]
        simp only [schedPrecedes, Bool.or_eq_true, Bool.and_eq_true,
          decide_eq_true_eq, beq_iff_eq] at hbx
        omega
  · intro r hr
    unfold TaskService.get_next_pending_task at hr
    cases hsel : selectFirstBy (fun t : TaskRow => t.status == .pending)
        tasks with
    | some t =>
      rw [hsel] at hr
      dsimp only at hr
      obtain ⟨htmem, htp⟩ := selectFirstBy_mem _ tasks t hsel
      have htps : t.status = .pending := by simpa using htp
      rw [htps] at hr
      simp only [TaskStatus.isTerminal] at hr
      simp at hr
      obtain hq := mark_queued_none_fields t now
      subst hr
      refine ⟨?_, ?_, ?_, t, htmem, hq.2.1, Or.inl htps⟩ <;>
        simp [hq.1]
    | none =>
      rw [hsel] at hr
      dsimp only at hr
      cases hsel2 : selectFirstBy (fun t : TaskRow => t.status == .queued)
          tasks with
      | none =>
        rw [hsel2] at hr
        cases hr
      | some t =>
        rw [hsel2] at hr
        dsimp only at hr
        obtain ⟨htmem, htq⟩ := selectFirstBy_mem _ tasks t hsel2
        have htqs : t.status = .queued := by simpa using htq
        rw [htqs] at hr
        simp only [TaskStatus.isTerminal] at hr
        simp at hr
        subst hr
        refine ⟨?_, ?_, ?_, t, htmem, rfl, Or.inr htqs⟩ <;>
          simp [htqs]

/-- A low-priority pending task created early. -/
def schedLowTask : TaskRow :=
  { freshTask with
    id := "t-low"
    priority := 5
    createdAt := 100 }

/-- A high-priority pending task created later. -/
def schedHighTask : TaskRow :=
  { freshTask with
    id := "t-high"
    priority := 8
    createdAt := 200 }

/-- C7 witness: with a priority-5 task created at 100 and a priority-8
task created at 200 both pending, the scheduler picks the priority-8
task. -/
theorem get_next_pending_task_spec_witness :
    (∃ t ∈ [schedLowTask, schedHighTask], t.status = .pending ∧
      (TaskService.get_next_pending_task [schedLowTask, schedHighTask]
        300).1 = some (t.mark_queued none 300) ∧
      ∀ u ∈ [schedLowTask, schedHighTask], u.status = .pending →
        u.priority < t.priority ∨
          (t.priority = u.priority ∧ t.createdAt ≤ u.createdAt)) ∧
    ((TaskService.get_next_pending_task [schedLowTask, schedHighTask]
      300).1).map TaskRow.priority = some 8 ∧
    ((TaskService.get_next_pending_task [schedLowTask, schedHighTask]
      300).1).map TaskRow.id = some "t-high" := by
  refine ⟨(get_next_pending_task_spec [schedLowTask, schedHighTask]
    300).1 ⟨schedHighTask, by simp, rfl⟩, ?_, ?_⟩ <;> decide

/-! ## C3: record classification by the Type field -/

/-- A parsed record whose Type field is absent. -/
def missingTypeRecord : AttackRecord :=
  { recType := none, queryTimes := none, timeCost := none,
    programLength := none, identifierNum := none }

/-- C3 counterexample: a record with no Type field is counted in
neither class: the failed test wants the literal string "0", and the
successful test explicitly excludes None, so the record drops out of
both lists while still counting toward total samples. -/
theorem missing_type_record_in_neither_class :
    is_failed_record missingTypeRecord = false ∧
    is_successful_record missingTypeRecord = false := by
  decide

/-- C3 amended: a record is classified failed exactly when its Type
field is the literal string "0", and successful exactly when the field
is present, non-null and different from "0"; no record is in both
classes, but a record with a missing or null Type field is in neither
(it still counts toward the method's total sample count). -/
theorem record_classification_spec (r : AttackRecord) :
    (is_failed_record r = true ↔ r.recType = some "0") ∧
    (is_successful_record r = true ↔
      ∃ s, r.recType = some s ∧ s ≠ "0") ∧
    (is_failed_record r && is_successful_record r) = false := by
  obtain ⟨ty, q, tc, pl, idn⟩ := r
  cases ty with
  | none => simp [is_failed_record, is_successful_record]
  | some s =>
    by_cases hs : s = "0" <;>
      simp [is_failed_record, is_successful_record, hs]

/-- C3 witness: the classification applied to a record tagged "0" and
to a record tagged "itgen". -/
theorem record_classification_spec_witness :
    is_failed_record { missingTypeRecord with recType := some "0" } =
      true ∧
    is_successful_record { missingTypeRecord with recType := some "itgen" } =
      true := by
  constructor
  · exact (record_classification_spec
      { missingTypeRecord with recType := some "0" }).1.mpr rfl
  · exact (record_classification_spec
      { missingTypeRecord with recType := some "itgen" }).2.1.mpr
      ⟨"itgen", rfl, by decide⟩

/-! ## C5: the uniform attacker result contract -/

/-- C5: every registered attacker with an attack body (itgen, alert,
beam, mhm, rnns; the wir registry entry points at a module that does
not exist) returns, on every input and on success and failure alike, a
dict carrying the seven contract keys, with adversarial_code None
whenever success is false. -/
theorem attack_result_contract_all_attackers (inp : AttackInput)
    (variable_names : List String) (task_type : String)
    (time_cost : Rat) :
    attack_result_contract (ITGenAttacker.attack inp time_cost) = true ∧
    attack_result_contract
      (ALERTAttacker.attack inp variable_names task_type time_cost) =
        true ∧
    attack_result_contract (BeamAttacker.attack inp time_cost) = true ∧
    attack_result_contract (MHMAttacker.attack inp) = true ∧
    attack_result_contract (RNNSAttacker.attack inp) = true := by
  refine ⟨?_, ?_, ?_, ?_, ?_⟩
  · unfold ITGenAttacker.attack itgen_attack_call
    dsimp only
    split_ifs <;> rfl
  · unfold ALERTAttacker.attack ALERTAttacker.ga_attack
    dsimp only
    split_ifs <;> first
      | rfl
      | simp_all
  · unfold BeamAttacker.attack BeamAttacker.beam_attack
    dsimp only
    split_ifs <;> first
      | rfl
      | simp_all
  · rfl
  · rfl

/-! ## C6: ITGen returns at once when the model is already wrong -/

/-- C6: when the model prediction differs from the supplied true label
(and code1 is non-empty), the ITGen attack returns the fixed mismatch
failure: query_times 0, success false, a non-null error message, and
the result is independent of the substitutes, so no search runs; a
budget-exhausted search failure, by contrast, carries a null error, so
the two failures are distinguishable. -/
theorem itgen_mismatch_short_circuit (inp : AttackInput)
    (time_cost : Rat) (hcode : ¬ pyStrip inp.code1 = "")
    (hmis : ¬ inp.predictedLabel = inp.trueLabel) :
    ITGenAttacker.attack inp time_cost =
      itgen_mismatch_result (pyStrip inp.code1) inp.predictedLabel
        inp.trueLabel ∧
    (ITGenAttacker.attack inp time_cost).lookup "query_times" =
      some (.pyint 0) ∧
    (ITGenAttacker.attack inp time_cost).lookup "success" =
      some (.pybool false) ∧
    (∀ subs, ITGenAttacker.attack { inp with substitutes := subs }
      time_cost = ITGenAttacker.attack inp time_cost) ∧
    (ITGenAttacker.attack inp time_cost).lookup "error" =
      some (.pystr (mismatch_error inp.predictedLabel inp.trueLabel)) ∧
    (∀ code adv is_succ repl qt tc,
      (itgen_search_result code adv is_succ repl qt tc).lookup "error" =
        some .pynull) := by
  have hmain : ITGenAttacker.attack inp time_cost =
      itgen_mismatch_result (pyStrip inp.code1) inp.predictedLabel
        inp.trueLabel := by
    unfold ITGenAttacker.attack
    rw [if_neg (by simpa using hcode), if_pos (by simpa using hmis)]
  refine ⟨hmain, ?_, ?_, ?_, ?_, ?_⟩
  · rw [hmain]
    rfl
  · rw [hmain]
    rfl
  · intro subs
    have h2 : ITGenAttacker.attack { inp with substitutes := subs }
        time_cost = itgen_mismatch_result (pyStrip inp.code1)
          inp.predictedLabel inp.trueLabel := by
      unfold ITGenAttacker.attack
      rw [if_neg (by simpa using hcode), if_pos (by simpa using hmis)]
    rw [h2, hmain]
  · rw [hmain]
    rfl
  · intro code adv is_succ repl qt tc
    rfl

/-- A concrete mismatched attack input: the model predicts 0 while the
supplied true label is 1. -/
def mismatchedInput : AttackInput :=
  { code1 := "int add(int a, int b) { return a + b; }"
    code2 := ""
    predictedLabel := 0
    trueLabel := 1
    substitutes := [("a", ["x", "y"])] }

/-- C6 witness: the mismatched demo input yields the fixed failure with
zero query_times and the non-null mismatch message. -/
theorem itgen_mismatch_short_circuit_witness :
    (ITGenAttacker.attack mismatchedInput 0).lookup "query_times" =
      some (.pyint 0) ∧
    (ITGenAttacker.attack mismatchedInput 0).lookup "success" =
      some (.pybool false) ∧
    (ITGenAttacker.attack mismatchedInput 0).lookup "error" =
      some (.pystr (mismatch_error 0 1)) ∧
    (itgen_search_result "c" "c" 0 [] 500 0).lookup "error" =
      some .pynull := by
  obtain ⟨-, h1, h2, -, h3, h4⟩ := itgen_mismatch_short_circuit
    mismatchedInput 0 (by decide) (by decide)
  exact ⟨h1, h2, h3, h4 "c" "c" 0 [] 500 0⟩

/-! ## C9: report aggregation formulas -/

/-- The per-method metric formulas, with the guards of the source
collapsed: in exact rational arithmetic a division by a zero count
yields 0, which coincides with the 0 the source assigns in its
zero-count branches. -/
theorem compute_method_metrics_formulas (recs : List AttackRecord) :
    (compute_method_metrics recs).totalSamples = recs.length ∧
    (compute_method_metrics recs).successfulAttacks =
      (recs.filter is_successful_record).length ∧
    (compute_method_metrics recs).failedAttacks =
      (recs.filter is_failed_record).length ∧
    (compute_method_metrics recs).asr =
      pyRound2 (100 * ((recs.filter is_successful_record).length : Rat) /
        (recs.length : Rat)) ∧
    (compute_method_metrics recs).ami =
      pyRound2 (((recs.filter is_successful_record).map
        (fun r => r.queryTimes.getD 0)).sum /
        ((recs.filter is_successful_record).length : Rat)) ∧
    (compute_method_metrics recs).art =
      pyRound2 (((recs.filter is_successful_record).map
        (fun r => r.timeCost.getD 0)).sum /
        ((recs.filter is_successful_record).length : Rat)) ∧
    (compute_method_metrics recs).avgProgramLength =
      pyRound2 ((recs.map (fun r => r.programLength.getD 0)).sum /
        (recs.length : Rat)) ∧
    (compute_method_metrics recs).avgIdentifiers =
      pyRound2 ((recs.map (fun r => r.identifierNum.getD 0)).sum /
        (recs.length : Rat)) := by
  unfold compute_method_metrics
  dsimp only
  refine ⟨rfl, rfl, rfl, ?_, ?_, ?_, ?_, ?_⟩
  · by_cases hn : 0 < recs.length
    · rw [if_pos hn]
      exact congrArg pyRound2 (by ring)
    · rw [if_neg hn]
      have hnil : recs = [] := List.length_eq_zero.mp (by omega)
      subst hnil
      simp
  · by_cases hn : 0 < (recs.filter is_successful_record).length
    · rw [if_pos hn]
    · rw [if_neg hn]
      have hnil : recs.filter is_successful_record = [] :=
        List.length_eq_zero.mp (by omega)
      rw [hnil]
      simp
  · by_cases hn : 0 < (recs.filter is_successful_record).length
    · rw [if_pos hn]
    · rw [if_neg hn]
      have hnil : recs.filter is_successful_record = [] :=
        List.length_eq_zero.mp (by omega)
      rw [hnil]
      simp
  · by_cases hn : 0 < recs.length
    · rw [if_pos hn]
    · rw [if_neg hn]
      have hnil : recs = [] := List.length_eq_zero.mp (by omega)
      subst hnil
      simp
  · by_cases hn : 0 < recs.length
    · rw [if_pos hn]
    · rw [if_neg hn]
      have hnil : recs = [] := List.length_eq_zero.mp (by omega)
      subst hnil
      simp

/-- Rewrites the weighted sum over the built method-metrics pairs as a
weighted sum over the input methods, using that each metrics block
records its own record count as totalSamples. -/
theorem weighted_sum_eq (methods : List (String × List AttackRecord))
    (T : Rat) (f : MethodMetrics → Rat) :
    ((methods.map (fun p => (p.1, compute_method_metrics p.2))).map
      (fun q => f q.2 * ((q.2.totalSamples : Rat) / T))).sum =
    (methods.map (fun p =>
      f (compute_method_metrics p.2) * ((p.2.length : Rat) / T))).sum := by
  rw [List.map_map]
  congr 1

/-- C9: when the pooled sample count is non-zero, the generated report
carries, per method, ASR = successes over total as a percentage, AMI
and ART as means of Query Times and Time Cost over successful records
only, and program-length and identifier averages over all records, each
rounded to 2 decimals; overall, ASR is pooled successes over pooled
totals, and AMI, ART and the two averages are the per-method values
weighted by each method's share of the pooled sample count. -/
theorem generate_report_spec (methods : List (String × List AttackRecord))
    (h : (methods.map (fun p => p.2.length)).sum ≠ 0) :
    ∃ rep, generate_report_from_results methods = Except.ok rep ∧
      rep.methodMetrics =
        methods.map (fun p => (p.1, compute_method_metrics p.2)) ∧
      (∀ p ∈ methods,
        (compute_method_metrics p.2).asr =
          pyRound2 (100 * ((p.2.filter is_successful_record).length : Rat) /
            (p.2.length : Rat)) ∧
        (compute_method_metrics p.2).ami =
          pyRound2 (((p.2.filter is_successful_record).map
            (fun r => r.queryTimes.getD 0)).sum /
            ((p.2.filter is_successful_record).length : Rat)) ∧
        (compute_method_metrics p.2).art =
          pyRound2 (((p.2.filter is_successful_record).map
            (fun r => r.timeCost.getD 0)).sum /
            ((p.2.filter is_successful_record).length : Rat)) ∧
        (compute_method_metrics p.2).avgProgramLength =
          pyRound2 ((p.2.map (fun r => r.programLength.getD 0)).sum /
            (p.2.length : Rat)) ∧
        (compute_method_metrics p.2).avgIdentifiers =
          pyRound2 ((p.2.map (fun r => r.identifierNum.getD 0)).sum /
            (p.2.length : Rat))) ∧
      rep.summaryStats.totalSamples =
        (methods.map (fun p => p.2.length)).sum ∧
      rep.summaryStats.successfulAttacks =
        (methods.map (fun p =>
          (p.2.filter is_successful_record).length)).sum ∧
      rep.summaryStats.asr =
        pyRound2 (100 * ((((methods.map (fun p =>
          (p.2.filter is_successful_record).length)).sum : Nat) : Rat)) /
          ((((methods.map (fun p => p.2.length)).sum : Nat) : Rat))) ∧
      rep.summaryStats.ami =
        pyRound2 ((methods.map (fun p =>
          (compute_method_metrics p.2).ami *
            ((p.2.length : Rat) /
              ((((methods.map (fun q => q.2.length)).sum : Nat) : Rat))))).sum) ∧
      rep.summaryStats.art =
        pyRound2 ((methods.map (fun p =>
          (compute_method_metrics p.2).art *
            ((p.2.length : Rat) /
              ((((methods.map (fun q => q.2.length)).sum : Nat) : Rat))))).sum) ∧
      rep.summaryStats.avgProgramLength =
        pyRound2 ((methods.map (fun p =>
          (compute_method_metrics p.2).avgProgramLength *
            ((p.2.length : Rat) /
              ((((methods.map (fun q => q.2.length)).sum : Nat) : Rat))))).sum) ∧
      rep.summaryStats.avgIdentifiers =
        pyRound2 ((methods.map (fun p =>
          (compute_method_metrics p.2).avgIdentifiers *
            ((p.2.length : Rat) /
              ((((methods.map (fun q => q.2.length)).sum : Nat) : Rat))))).sum) := by
  unfold generate_report_from_results
  dsimp only
  rw [if_neg (by simpa using h)]
  refine ⟨_, rfl, rfl, ?_, rfl, rfl, ?_, ?_, ?_, ?_, ?_⟩
  · intro p hp
    obtain ⟨-, -, -, h4, h5, h6, h7, h8⟩ :=
      compute_method_metrics_formulas p.2
    exact ⟨h4, h5, h6, h7, h8⟩
  · dsimp only
    exact congrArg pyRound2 (by ring)
  · dsimp only
    exact congrArg pyRound2 (weighted_sum_eq methods _ (fun m => m.ami))
  · dsimp only
    exact congrArg pyRound2 (weighted_sum_eq methods _ (fun m => m.art))
  · dsimp only
    exact congrArg pyRound2
      (weighted_sum_eq methods _ (fun m => m.avgProgramLength))
  · dsimp only
    exact congrArg pyRound2
      (weighted_sum_eq methods _ (fun m => m.avgIdentifiers))

/-- A synthetic result record carrying the given Type tag. -/
def demoRecord (tag : String) : AttackRecord :=
  { recType := some tag, queryTimes := some 10, timeCost := some 2,
    programLength := some 100, identifierNum := some 5 }

/-- Ten itgen records, 4 successful (Type "itgen") and 6 failed. -/
def demoItgenRecords : List AttackRecord :=
  List.replicate 4 (demoRecord "itgen") ++
    List.replicate 6 (demoRecord "0")

/-- Five alert records, 1 successful (Type "Greedy") and 4 failed. -/
def demoAlertRecords : List AttackRecord :=
  List.replicate 1 (demoRecord "Greedy") ++
    List.replicate 4 (demoRecord "0")

/-- The two-method synthetic input of the aggregation example. -/
def demoMethods : List (String × List AttackRecord) :=
  [("itgen", demoItgenRecords), ("alert", demoAlertRecords)]

/-- C9 witness: on the synthetic input the per-method ASRs are 40.0
and 20.0 and the overall ASR is 33.33 (as the rational 3333/100). -/
theorem generate_report_spec_witness :
    (compute_method_metrics demoItgenRecords).asr = 40 ∧
    (compute_method_metrics demoAlertRecords).asr = 20 ∧
    ∃ rep, generate_report_from_results demoMethods = Except.ok rep ∧
      rep.methodMetrics =
        [("itgen", compute_method_metrics demoItgenRecords),
         ("alert", compute_method_metrics demoAlertRecords)] ∧
      rep.summaryStats.asr = 3333 / 100 := by
  obtain ⟨rep, hok, hmm, hper, -, -, hasr, -⟩ :=
    generate_report_spec demoMethods (by decide)
  have hitgen : (compute_method_metrics demoItgenRecords).asr = 40 := by
    rw [(compute_method_metrics_formulas demoItgenRecords).2.2.2.1]
    rw [show (demoItgenRecords.filter is_successful_record).length = 4
      from by decide]
    rw [show demoItgenRecords.length = 10 from by decide]
    norm_num [pyRound2, pyRoundInt]
  have halert : (compute_method_metrics demoAlertRecords).asr = 20 := by
    rw [(compute_method_metrics_formulas demoAlertRecords).2.2.2.1]
    rw [show (demoAlertRecords.filter is_successful_record).length = 1
      from by decide]
    rw [show demoAlertRecords.length = 5 from by decide]
    norm_num [pyRound2, pyRoundInt]
  refine ⟨hitgen, halert, rep, hok, by rw [hmm]; rfl, ?_⟩
  rw [hasr]
  rw [show (demoMethods.map (fun p =>
    (p.2.filter is_successful_record).length)).sum = 5 from by decide]
  rw [show (demoMethods.map (fun p => p.2.length)).sum = 15 from by decide]
  norm_num [pyRound2, pyRoundInt]
